import Mathlib

/-!
Verification of the hex-grid drawing core of the iron_sandboxide repository.

The embedding follows the Rust sources:
* `src/world_grid_manager.rs` — `WorldGridManager::draw_grid`,
  `recursive_hex_draw`, `recursive_spoke_draw`, the `Direction` enum with its
  hand-written `PartialEq`, and the two direction→angle tables;
* `src/game_assets/colors.rs` — the color constants and `from_element`;
* `src/game_managers/obstacle_manager.rs` and
  `src/game_managers/resource_manager.rs` — `add_instance_to_mesh_builder`.

Modelling conventions:
* `f32` coordinates are modelled over `ℝ` (trig is exact `Real.cos`/`Real.sin`);
  color channels, which only ever undergo decimal arithmetic, over `ℚ`.
* The ggez `MeshBuilder` is modelled as the list of primitives appended so far.
* Recursions whose termination depends on reaching `level == max_radial_distance`
  (and the self-referential `Direction::eq`) are embedded with an explicit fuel
  parameter; `none` means the computation did not finish within that call depth.
* Rust panics (`panic!`, `unwrap` on external lookups) are modelled as `none`.
* Repository code referenced from the sources but absent from the source tree
  (`game_assets/hex_grid_cell.rs`, the crate-root constants, `colors::DARKGREY`,
  `colors::from_resource`) and the external `cast_iron` collaborators are
  modelled from the specification; each such definition is marked
  `Modelled from the spec:` in its doc comment.
-/

namespace IronSandboxide

/-- 2-D screen-space point (`ggez_mint::Point2<f32>`, coordinates over `ℝ`). -/
@[ext]
structure Point where
  x : ℝ
  y : ℝ

/-- RGBA color (`ggez_gfx::Color`, channels over `ℚ`). -/
structure Color where
  r : ℚ
  g : ℚ
  b : ℚ
  a : ℚ
  deriving DecidableEq

/-- `colors::WHITE` (= `ggez_gfx::WHITE`, opaque white). -/
def WHITE : Color := ⟨1, 1, 1, 1⟩

/-- `colors::GREEN`. -/
def GREEN : Color := ⟨0, 1, 0, 1⟩

/-- `colors::RED`. -/
def RED : Color := ⟨1, 0, 0, 1⟩

/-- `colors::BLUE`. -/
def BLUE : Color := ⟨0, 0, 1, 1⟩

/-- `colors::YELLOW`. -/
def YELLOW : Color := ⟨1, 1, 0, 1⟩

/-- `colors::CYAN`. -/
def CYAN : Color := ⟨0, 1, 1, 1⟩

/-- `colors::INDIGO`. -/
def INDIGO : Color := ⟨0.180, 0.168, 0.371, 1⟩

/-- `colors::BROWN`. -/
def BROWN : Color := ⟨0.547, 0.273, 0.078, 1⟩

/-- `colors::IVORY`. -/
def IVORY : Color := ⟨1, 1, 0.941, 1⟩

/-- Modelled from the spec: `colors::DARKGREY`, the fixed dark border color used
for obstacle cells; its defining code is not in the source tree. -/
def DARKGREY : Color := ⟨0.2, 0.2, 0.2, 1⟩

/-- A line primitive as appended by `MeshBuilder::line(points, width, color)`. -/
structure Segment where
  p1 : Point
  p2 : Point
  width : ℚ
  color : Color

/-- A primitive recorded by the ggez mesh builder: a line segment, or a filled
polygon with a fill and a border color. -/
inductive MeshItem where
  | line (seg : Segment)
  | poly (vertices : List Point) (fill : Color) (border : Color)

/-- The mesh builder, modelled as the list of primitives appended so far. -/
abbrev MeshBuilder := List MeshItem

/-- True exactly on line items (used for counting). -/
def MeshItem.isLineItem : MeshItem → Bool
  | .line _ => true
  | .poly _ _ _ => false

/-- True exactly on polygon items (used for counting). -/
def MeshItem.isPolyItem : MeshItem → Bool
  | .line _ => false
  | .poly _ _ _ => true

/-- Number of line primitives in a mesh builder. -/
def countLine (m : MeshBuilder) : Nat := m.countP MeshItem.isLineItem

/-- Number of polygon primitives in a mesh builder. -/
def countPoly (m : MeshBuilder) : Nat := m.countP MeshItem.isPolyItem

/-- The 8-way compass enum `Direction` of `world_grid_manager.rs`. -/
inductive Direction where
  | EAST
  | NORTHEAST
  | NORTH
  | NORTHWEST
  | WEST
  | SOUTHWEST
  | SOUTH
  | SOUTHEAST
  deriving DecidableEq

/-- The hand-written `impl PartialEq for Direction`: its body is `self == other`
on the two references, which dispatches back to the very same `eq` function with
the same arguments. Embedded with a fuel parameter counting call depth; `none`
means no result was produced within that depth. -/
def direction_eq_fuel (fuel : Nat) (a b : Direction) : Option Bool :=
  match fuel with
  | 0 => none
  | n + 1 => direction_eq_fuel n a b

/-- `GRID_CELL_SIZE` (`world_grid_manager.rs`). -/
def GRID_CELL_SIZE : ℝ := 30.0

/-- `Y_OFFSET = GRID_CELL_SIZE * 0.86602540378` (`world_grid_manager.rs`):
distance from the centerpoint of a hex to the center of a side. -/
noncomputable def Y_OFFSET : ℝ := GRID_CELL_SIZE * 0.86602540378

/-- `HEX_SIZE = Y_OFFSET * 2.0` (local static of `recursive_hex_draw`). -/
noncomputable def HEX_SIZE : ℝ := Y_OFFSET * 2.0

/-- The constant `PI` used by the source (`std::f32::consts::PI`). -/
noncomputable def PI : ℝ := Real.pi

/-- The `HEX_SIDES` table: side-midpoint angles keyed by direction, in insertion
order. (The source stores them in a `HashMap`; only the set of entries matters
to the drawing routines, which iterate the whole table.) -/
noncomputable def HEX_SIDES : List (Direction × ℝ) :=
  [(Direction.NORTHEAST, PI / 6),
   (Direction.NORTH, PI / 2),
   (Direction.NORTHWEST, 5 * PI / 6),
   (Direction.SOUTHWEST, 7 * PI / 6),
   (Direction.SOUTH, 3 * PI / 2),
   (Direction.SOUTHEAST, 11 * PI / 6)]

/-- The `HEX_VERTICES` table: vertex angles keyed by direction, in insertion
order. -/
noncomputable def HEX_VERTICES : List (Direction × ℝ) :=
  [(Direction.EAST, 0),
   (Direction.NORTHEAST, PI / 3),
   (Direction.NORTHWEST, 2 * PI / 3),
   (Direction.WEST, PI),
   (Direction.SOUTHWEST, 4 * PI / 3),
   (Direction.SOUTHEAST, 5 * PI / 3)]

/-- First endpoint of the parallel line drawn by `recursive_hex_draw` for side
angle `theta` at the given `level`: base point at angle `theta - PI/6` and
radius `GRID_CELL_SIZE` from `center` (screen-space y inverted), then translated
by `level * HEX_SIZE` along direction `theta`. -/
noncomputable def hexSideEndpointA (center : Point) (level : Nat) (theta : ℝ) : Point :=
  ⟨center.x + GRID_CELL_SIZE * Real.cos (theta - PI / 6) + (level : ℝ) * (HEX_SIZE * Real.cos theta),
   center.y - GRID_CELL_SIZE * Real.sin (theta - PI / 6) - (level : ℝ) * (HEX_SIZE * Real.sin theta)⟩

/-- Second endpoint of the parallel line: as `hexSideEndpointA` but at angle
`theta + PI/6`. -/
noncomputable def hexSideEndpointB (center : Point) (level : Nat) (theta : ℝ) : Point :=
  ⟨center.x + GRID_CELL_SIZE * Real.cos (theta + PI / 6) + (level : ℝ) * (HEX_SIZE * Real.cos theta),
   center.y - GRID_CELL_SIZE * Real.sin (theta + PI / 6) - (level : ℝ) * (HEX_SIZE * Real.sin theta)⟩

/-- The line appended for one side angle at one level:
`input_mesh.line(&[endpt_a, endpt_b], 1.0, WHITE)`. -/
noncomputable def hexSideSegment (center : Point) (level : Nat) (theta : ℝ) : MeshItem :=
  MeshItem.line ⟨hexSideEndpointA center level theta, hexSideEndpointB center level theta, 1, WHITE⟩

/-- The six lines appended by one invocation of `recursive_hex_draw` (one per
entry of `HEX_SIDES`, in table order). -/
noncomputable def hexLevelSegments (center : Point) (level : Nat) : List MeshItem :=
  HEX_SIDES.map (fun p => hexSideSegment center level p.2)

/-- `WorldGridManager::recursive_hex_draw`. `R` is `self.max_radial_distance`.
Returns when `level == R`; otherwise appends the six side lines for this level
and recurses at `level + 1` with the unchanged center. Fuel bounds the call
depth; `none` models a run that does not finish within it. -/
noncomputable def recursive_hex_draw (fuel R : Nat) (color : Color) (center : Point)
    (level : Nat) (input_mesh : MeshBuilder) : Option MeshBuilder :=
  match fuel with
  | 0 => none
  | f + 1 =>
    if level = R then some input_mesh
    else recursive_hex_draw f R color center (level + 1) (input_mesh ++ hexLevelSegments center level)

/-- The color updates of `recursive_spoke_draw` (lines 240–246 of
`world_grid_manager.rs`): `color.g -= 0.1; color.r += 0.1;` before the first
recursive call, then `color.r = color.b + 0.1;` before the second. Returns the
(first branch, second branch) colors. -/
def spokeChildColors (color : Color) : Color × Color :=
  let c1 := { color with g := color.g - 0.1 }
  let c2 := { c1 with r := c1.r + 0.1 }
  let c3 := { c2 with r := c2.b + 0.1 }
  (c2, c3)

/-- `endpoints[0]` of `recursive_spoke_draw`: the stem endpoint at distance
`GRID_CELL_SIZE` from `origin` along `theta` (screen-space y inverted). -/
noncomputable def spokeStem (origin : Point) (theta : ℝ) : Point :=
  ⟨origin.x + GRID_CELL_SIZE * Real.cos theta,
   origin.y - GRID_CELL_SIZE * Real.sin theta⟩

/-- `endpoints[1]` of `recursive_spoke_draw`: branch endpoint at distance
`GRID_CELL_SIZE` from the stem along `theta + PI/3`. -/
noncomputable def spokeBranch1 (origin : Point) (theta : ℝ) : Point :=
  ⟨(spokeStem origin theta).x + GRID_CELL_SIZE * Real.cos (theta + PI / 3),
   (spokeStem origin theta).y - GRID_CELL_SIZE * Real.sin (theta + PI / 3)⟩

/-- `endpoints[2]` of `recursive_spoke_draw`: branch endpoint at distance
`GRID_CELL_SIZE` from the stem along `theta - PI/3`. -/
noncomputable def spokeBranch2 (origin : Point) (theta : ℝ) : Point :=
  ⟨(spokeStem origin theta).x + GRID_CELL_SIZE * Real.cos (theta - PI / 3),
   (spokeStem origin theta).y - GRID_CELL_SIZE * Real.sin (theta - PI / 3)⟩

/-- The `lines` array of one `recursive_spoke_draw` invocation: origin→stem,
stem→branch1, stem→branch2, each drawn with width `1.0` and color `WHITE`. -/
noncomputable def spokeLines (origin : Point) (theta : ℝ) : List MeshItem :=
  [MeshItem.line ⟨origin, spokeStem origin theta, 1, WHITE⟩,
   MeshItem.line ⟨spokeStem origin theta, spokeBranch1 origin theta, 1, WHITE⟩,
   MeshItem.line ⟨spokeStem origin theta, spokeBranch2 origin theta, 1, WHITE⟩]

/-- `WorldGridManager::recursive_spoke_draw`. Returns when `level == R`;
otherwise appends the three spoke lines and recurses into both branch
endpoints at `level + 1` with the updated colors (first branch with the first
component of `spokeChildColors`, second branch with the second). -/
noncomputable def recursive_spoke_draw (fuel R : Nat) (color : Color) (origin : Point)
    (theta : ℝ) (level : Nat) (input_mesh : MeshBuilder) : Option MeshBuilder :=
  match fuel with
  | 0 => none
  | f + 1 =>
    if level = R then some input_mesh
    else
      (recursive_spoke_draw f R (spokeChildColors color).1 (spokeBranch1 origin theta) theta
          (level + 1) (input_mesh ++ spokeLines origin theta)).bind
        (fun mesh2 => recursive_spoke_draw f R (spokeChildColors color).2
          (spokeBranch2 origin theta) theta (level + 1) mesh2)

/-- The origin point computed by `draw_grid` for one vertex direction: offset
from `center` by `GRID_CELL_SIZE` along the vertex angle (y inverted). -/
noncomputable def spokeOrigin (center : Point) (theta : ℝ) : Point :=
  ⟨center.x + GRID_CELL_SIZE * Real.cos theta,
   center.y - GRID_CELL_SIZE * Real.sin theta⟩

/-- The spoke loop of `draw_grid`: for each vertex-table entry, compute the
spoke origin and run `recursive_spoke_draw` with color `GREEN` at level 0. -/
noncomputable def drawSpokesAux (fuel R : Nat) (center : Point) :
    List (Direction × ℝ) → MeshBuilder → Option MeshBuilder
  | [], mesh => some mesh
  | p :: rest, mesh =>
    (recursive_spoke_draw fuel R GREEN (spokeOrigin center p.2) p.2 0 mesh).bind
      (fun m2 => drawSpokesAux fuel R center rest m2)

/-- `WorldGridManager::draw_grid`: draws the hex rings (with `WHITE`) starting
at level 0, then the six spokes (with `GREEN`). -/
noncomputable def draw_grid (fuel R : Nat) (center : Point) (mesh_builder : MeshBuilder) :
    Option MeshBuilder :=
  (recursive_hex_draw fuel R WHITE center 0 mesh_builder).bind
    (fun m => drawSpokesAux fuel R center HEX_VERTICES m)

/-- The `Element` enum of the external `cast_iron` crate, with exactly the
variants matched by `colors::from_element`. -/
inductive Element where
  | Unset
  | Fire
  | Ice
  | Wind
  | Water
  | Electric
  | Earth
  | Light
  | Dark
  deriving DecidableEq

/-- `colors::from_element`. The source panics on `Element::Unset`; the panic is
modelled as `none`. -/
def from_element (elem : Element) : Option Color :=
  match elem with
  | Element.Unset => none
  | Element.Fire => some RED
  | Element.Ice => some CYAN
  | Element.Wind => some GREEN
  | Element.Water => some BLUE
  | Element.Electric => some YELLOW
  | Element.Earth => some BROWN
  | Element.Light => some IVORY
  | Element.Dark => some INDIGO

/-- The hex-axial coordinate type of the external `cast_iron` crate: three
integer components with accessors `x()`, `y()`, `z()` and componentwise
subtraction. -/
structure HexCoord where
  x : ℤ
  y : ℤ
  z : ℤ
  deriving DecidableEq

/-- Componentwise subtraction of hex-axial coordinates (`*prev - *cur`). -/
def HexCoord.sub (p q : HexCoord) : HexCoord :=
  ⟨p.x - q.x, p.y - q.y, p.z - q.z⟩

/-- The hex-side enum `hex_directions::Side` of the external `cast_iron` crate
(six intercardinal sides). -/
inductive Side where
  | NORTHEAST
  | NORTH
  | NORTHWEST
  | SOUTHWEST
  | SOUTH
  | SOUTHEAST
  deriving DecidableEq

/-- Modelled from the spec: `hex_directions::Side::from(offset)` — the
axial-coordinate subtraction of two adjacent cells yields a unit offset that is
looked up as the direction of the shared side; a non-adjacent offset has no
side (the conversion lives in the external `cast_iron` crate and the source
unwraps it, so failure is a panic, modelled as `none` downstream). -/
def sideFromDelta (d : HexCoord) : Option Side :=
  if d = ⟨1, 0, -1⟩ then some Side.NORTHEAST
  else if d = ⟨0, 1, -1⟩ then some Side.NORTH
  else if d = ⟨-1, 1, 0⟩ then some Side.NORTHWEST
  else if d = ⟨-1, 0, 1⟩ then some Side.SOUTHWEST
  else if d = ⟨0, -1, 1⟩ then some Side.SOUTH
  else if d = ⟨1, -1, 0⟩ then some Side.SOUTHEAST
  else none

/-- Modelled from the spec: `f32::from(hex_directions::Side)` — the side's
midpoint angle in radians, matching the repository's own side-angle table. -/
noncomputable def sideAngle : Side → ℝ
  | Side.NORTHEAST => PI / 6
  | Side.NORTH => PI / 2
  | Side.NORTHWEST => 5 * PI / 6
  | Side.SOUTHWEST => 7 * PI / 6
  | Side.SOUTH => 3 * PI / 2
  | Side.SOUTHEAST => 11 * PI / 6

/-- Modelled from the spec: `hex_directions::Side::get_adjacent_vertices` — the
indices of the two vertices flanking a side; with vertex `k` at angle `k·60°`,
side at angle `30° + k·60°` is flanked by vertices `k` and `k+1`. -/
def Side.get_adjacent_vertices : Side → Fin 6 × Fin 6
  | Side.NORTHEAST => (0, 1)
  | Side.NORTH => (1, 2)
  | Side.NORTHWEST => (2, 3)
  | Side.SOUTHWEST => (3, 4)
  | Side.SOUTH => (4, 5)
  | Side.SOUTHEAST => (5, 0)

/-- Modelled from the spec: the crate-root constant `CENTER_TO_VERTEX_DIST`
(center-to-vertex distance of a grid cell, i.e. the cell size); its defining
file is not in the source tree. -/
def CENTER_TO_VERTEX_DIST : ℝ := GRID_CELL_SIZE

/-- Modelled from the spec: the crate-root constant `CENTER_TO_SIDE_DIST`
(center-to-side distance, `cellSize · sin 60°`); its defining file is not in
the source tree. -/
noncomputable def CENTER_TO_SIDE_DIST : ℝ := Y_OFFSET

/-- Modelled from the spec: the crate-root constant `DEFAULT_LINE_WIDTH` (the
fixed line width used by the managers); its defining file is not in the source
tree. -/
def DEFAULT_LINE_WIDTH : ℚ := 1

/-- Modelled from the spec: the crate-root constant `HEX_RADIUS_VERTEX` (cell
size used for resource cells); its defining file is not in the source tree. -/
def HEX_RADIUS_VERTEX : ℝ := GRID_CELL_SIZE

/-- The screen-space centerpoint of the cell at hex coordinate `c`
(`obstacle_manager.rs`, lines 131–140): x offset `c.x · CENTER_TO_VERTEX_DIST · 3`,
y offset from the `y`/`z` components scaled by the sines of the NORTHWEST and
SOUTHWEST side angles and `CENTER_TO_SIDE_DIST · 2`. -/
noncomputable def hexCoordScreenCenter (window_center : Point) (c : HexCoord) : Point :=
  ⟨window_center.x + (c.x : ℝ) * (CENTER_TO_VERTEX_DIST * 3),
   window_center.y + (-(c.y : ℝ)) * Real.sin (sideAngle Side.NORTHWEST) * (CENTER_TO_SIDE_DIST * 2) +
     (-(c.z : ℝ)) * Real.sin (sideAngle Side.SOUTHWEST) * (CENTER_TO_SIDE_DIST * 2)⟩

/-- Modelled from the spec: `HexGridCell` (its file
`game_assets/hex_grid_cell.rs` is not in the source tree) — one hexagonal
cell's geometry, derived from a center point and a fixed size. -/
structure HexGridCell where
  center : Point
  size : ℝ

/-- Modelled from the spec: vertex `k` of a `HexGridCell`, at angle `k·60°` and
distance `size` from the center (screen-space y inverted). -/
noncomputable def HexGridCell.vertex (cell : HexGridCell) (k : Fin 6) : Point :=
  ⟨cell.center.x + cell.size * Real.cos ((k : ℝ) * (PI / 3)),
   cell.center.y - cell.size * Real.sin ((k : ℝ) * (PI / 3))⟩

/-- Modelled from the spec: `HexGridCell::add_to_mesh` — appends one filled
polygon (the cell's six vertices) with the given fill and border colors. -/
noncomputable def HexGridCell.add_to_mesh (cell : HexGridCell) (fill border : Color)
    (mesh : MeshBuilder) : MeshBuilder :=
  mesh ++ [MeshItem.poly ((List.finRange 6).map cell.vertex) fill border]

/-- Modelled from the spec: `HexGridCell::add_radials_to_mesh` — appends the
concentric radial cells out to `radius`, ring `k` contributing `6·k` cells, all
with the given fill and border colors. (The spec fixes the count and colors of
the radial cells, not their screen placement, which here reuses the base cell's
geometry.) -/
noncomputable def HexGridCell.add_radials_to_mesh (cell : HexGridCell) (fill border : Color)
    (radius : Nat) (has_fill : Bool) (mesh : MeshBuilder) : MeshBuilder :=
  mesh ++ (List.range radius).flatMap
    (fun k => List.replicate (6 * (k + 1))
      (MeshItem.poly ((List.finRange 6).map cell.vertex) fill border))

/-- `mechanics::obstacle::Obstacle` of the external `cast_iron` crate: an
elemental type plus the path of hex coordinates returned by `all_coords()`. -/
structure Obstacle where
  element : Element
  all_coords : List HexCoord

/-- `mechanics::resource::Resource` of the external `cast_iron` crate: an
elemental type, an origin coordinate, and a radius. -/
structure Resource where
  element : Element
  origin : HexCoord
  radius : Nat

/-- Modelled from the spec: `colors::from_resource` (not in the source tree) —
the display color of a resource is its elemental type's color. -/
def from_resource (r : Resource) : Option Color := from_element r.element

/-- `ObstacleError` (`obstacle_manager.rs`): a fieldless error type that the
source never constructs. -/
structure ObstacleError where

/-- `ResourceError` (`resource_manager.rs`): a fieldless error type that the
source never constructs. -/
structure ResourceError where

/-- The loop body of `ObstacleManager::add_instance_to_mesh_builder`: for each
coordinate, add the hex cell (fill = element color, border = `DARKGREY`); for
every coordinate after the first, additionally draw a line over the hex side
shared with the previous coordinate, in the element's color. `none` models a
panic (`from_element` on an unset element, or `Side::from` on a non-adjacent
offset). -/
noncomputable def obstacleLoop (elem : Element) (window_center : Point) :
    List HexCoord → Option HexCoord → MeshBuilder → Option MeshBuilder
  | [], _, mesh => some mesh
  | c :: rest, prev, mesh =>
    match from_element elem with
    | none => none
    | some elemColor =>
      let cur_hex : HexGridCell := ⟨hexCoordScreenCenter window_center c, GRID_CELL_SIZE⟩
      let mesh1 := cur_hex.add_to_mesh elemColor DARKGREY mesh
      match prev with
      | none => obstacleLoop elem window_center rest (some c) mesh1
      | some p =>
        match sideFromDelta (p.sub c) with
        | none => none
        | some direction =>
          let vs := Side.get_adjacent_vertices direction
          let shared_line : Segment :=
            ⟨cur_hex.vertex vs.1, cur_hex.vertex vs.2, DEFAULT_LINE_WIDTH, elemColor⟩
          obstacleLoop elem window_center rest (some c) (mesh1 ++ [MeshItem.line shared_line])

/-- `ObstacleManager::add_instance_to_mesh_builder` (`obstacle_manager.rs`,
lines 115–164): computes the window center, runs the coordinate loop, and
returns `Ok(())`. `none` models a panic inside the loop. -/
noncomputable def obstacle_add_instance_to_mesh_builder (window_x window_y : ℝ)
    (inst : Obstacle) (mesh_builder : MeshBuilder) : Option (Except ObstacleError MeshBuilder) :=
  let window_center : Point := ⟨window_x / 2, window_y / 2⟩
  match obstacleLoop inst.element window_center inst.all_coords none mesh_builder with
  | none => none
  | some out => some (Except.ok out)

/-- `ResourceManager::add_instance_to_mesh_builder` (`resource_manager.rs`,
lines 115–131): builds one cell at the resource's origin, adds its radial
cells, and returns `Ok(())`. `none` models a panic in `from_resource`. -/
noncomputable def resource_add_instance_to_mesh_builder (window_x window_y : ℝ)
    (inst : Resource) (mesh_builder : MeshBuilder) : Option (Except ResourceError MeshBuilder) :=
  let window_center : Point := ⟨window_x / 2, window_y / 2⟩
  match from_resource inst with
  | none => none
  | some col =>
    let cur_hex : HexGridCell := ⟨hexCoordScreenCenter window_center inst.origin, HEX_RADIUS_VERTEX⟩
    some (Except.ok
      (cur_hex.add_radials_to_mesh col WHITE inst.radius true
        (cur_hex.add_to_mesh col WHITE mesh_builder)))

/-- Adjacency of a coordinate path, threaded the way the obstacle loop sees it:
every coordinate after the first yields a valid shared-side lookup against its
predecessor. -/
def chainAdjB : Option HexCoord → List HexCoord → Bool
  | _, [] => true
  | none, c :: rest => chainAdjB (some c) rest
  | some p, c :: rest => (sideFromDelta (p.sub c)).isSome && chainAdjB (some c) rest

/-- 1 when the loop of `add_instance_to_mesh_builder` still sits on the first
coordinate (no previous coordinate yet), else 0; the first coordinate is the
only one that gets no shared-side override line. -/
def prevFirst : Option HexCoord → Nat
  | none => 1
  | some _ => 0

/-- A line item with width 1 and color `WHITE` (what the world-grid routines
emit). -/
def whiteLine (it : MeshItem) : Prop :=
  ∃ seg, it = MeshItem.line seg ∧ seg.width = 1 ∧ seg.color = WHITE

/-- Every item of the mesh is a line of width 1 and color `WHITE` — and hence
not of the `GREEN` color that `draw_grid` passes for the spokes. -/
def allWhiteUnitLines (m : MeshBuilder) : Prop :=
  ∀ it ∈ m, ∃ seg, it = MeshItem.line seg ∧ seg.width = 1 ∧
    seg.color = WHITE ∧ seg.color ≠ GREEN

/-- An item added for an obstacle whose element color is `c`: a hex cell filled
with `c` and bordered `DARKGREY`, or a shared-side line of color `c` and the
default width. -/
def obstacleItem (c : Color) (it : MeshItem) : Prop :=
  (∃ vs, it = MeshItem.poly vs c DARKGREY) ∨
  (∃ seg, it = MeshItem.line seg ∧ seg.color = c ∧ seg.width = DEFAULT_LINE_WIDTH)

/-! ## Helper lemmas -/

lemma map_succ_flatMap {α : Type} (f : Nat → List α) (l : List Nat) :
    (l.map Nat.succ).flatMap f = l.flatMap (fun k => f (k + 1)) := by
  induction l with
  | nil => rfl
  | cons a l ih => simp [List.flatMap_cons, ih]

lemma range_flatMap_hexLevel (center : Point) (g lv : Nat) :
    (List.range (g + 1)).flatMap (fun k => hexLevelSegments center (lv + k)) =
      hexLevelSegments center lv ++
        (List.range g).flatMap (fun k => hexLevelSegments center (lv + 1 + k)) := by
  rw [List.range_succ_eq_map, List.flatMap_cons, map_succ_flatMap]
  simp only [Nat.add_zero, Nat.add_one, Nat.add_succ, Nat.succ_add]

lemma recursive_hex_draw_closed (R : Nat) (color : Color) (center : Point) :
    ∀ (g fuel level : Nat) (mesh : MeshBuilder), level + g = R → g + 1 ≤ fuel →
      recursive_hex_draw fuel R color center level mesh =
        some (mesh ++ (List.range g).flatMap (fun k => hexLevelSegments center (level + k))) := by
  intro g
  induction g with
  | zero =>
    intro fuel level mesh hlv hf
    obtain ⟨f, rfl⟩ : ∃ f, fuel = f + 1 := ⟨fuel - 1, by omega⟩
    have : level = R := by omega
    simp [recursive_hex_draw, this]
  | succ g ih =>
    intro fuel level mesh hlv hf
    obtain ⟨f, rfl⟩ : ∃ f, fuel = f + 1 := ⟨fuel - 1, by omega⟩
    have hne : level ≠ R := by omega
    rw [recursive_hex_draw]
    rw [if_neg hne]
    rw [ih f (level + 1) (mesh ++ hexLevelSegments center level) (by omega) (by omega)]
    rw [range_flatMap_hexLevel]
    simp [List.append_assoc]

lemma hexLevelSegments_length (center : Point) (level : Nat) :
    (hexLevelSegments center level).length = 6 := by
  simp [hexLevelSegments, HEX_SIDES]

lemma range_flatMap_hexLevel_length (center : Point) :
    ∀ (g lv : Nat),
      ((List.range g).flatMap (fun k => hexLevelSegments center (lv + k))).length = 6 * g := by
  intro g
  induction g with
  | zero => intro lv; simp
  | succ g ih =>
    intro lv
    rw [range_flatMap_hexLevel, List.length_append, hexLevelSegments_length, ih (lv + 1)]
    omega

lemma recursive_spoke_draw_count (R : Nat) (theta : ℝ) :
    ∀ (g fuel level : Nat) (color : Color) (origin : Point) (mesh : MeshBuilder),
      level + g = R → g + 1 ≤ fuel →
      ∃ out, recursive_spoke_draw fuel R color origin theta level mesh = some out ∧
        out.length = mesh.length + 3 * (2 ^ g - 1) := by
  intro g
  induction g with
  | zero =>
    intro fuel level color origin mesh hlv hf
    obtain ⟨f, rfl⟩ : ∃ f, fuel = f + 1 := ⟨fuel - 1, by omega⟩
    have : level = R := by omega
    exact ⟨mesh, by simp [recursive_spoke_draw, this], by simp⟩
  | succ g ih =>
    intro fuel level color origin mesh hlv hf
    obtain ⟨f, rfl⟩ : ∃ f, fuel = f + 1 := ⟨fuel - 1, by omega⟩
    have hne : level ≠ R := by omega
    obtain ⟨m2, h1, hl1⟩ := ih f (level + 1) (spokeChildColors color).1 (spokeBranch1 origin theta)
      (mesh ++ spokeLines origin theta) (by omega) (by omega)
    obtain ⟨out, h2, hl2⟩ := ih f (level + 1) (spokeChildColors color).2 (spokeBranch2 origin theta)
      m2 (by omega) (by omega)
    refine ⟨out, ?_, ?_⟩
    · rw [recursive_spoke_draw, if_neg hne, h1, Option.some_bind, h2]
    · have hlines : (spokeLines origin theta).length = 3 := by simp [spokeLines]
      have hpow : 1 ≤ 2 ^ g := Nat.one_le_pow g 2 (by omega)
      rw [hl2, hl1, List.length_append, hlines, pow_succ]
      generalize (2 : Nat) ^ g = t at hpow ⊢
      omega

lemma drawSpokesAux_count (R fuel : Nat) (center : Point) (hf : R + 1 ≤ fuel) :
    ∀ (dirs : List (Direction × ℝ)) (mesh : MeshBuilder),
      ∃ out, drawSpokesAux fuel R center dirs mesh = some out ∧
        out.length = mesh.length + dirs.length * (3 * (2 ^ R - 1)) := by
  intro dirs
  induction dirs with
  | nil => intro mesh; exact ⟨mesh, rfl, by simp⟩
  | cons p rest ih =>
    intro mesh
    obtain ⟨m2, h1, hl1⟩ := recursive_spoke_draw_count R p.2 R fuel 0 GREEN
      (spokeOrigin center p.2) mesh (by omega) hf
    obtain ⟨out, h2, hl2⟩ := ih m2
    refine ⟨out, ?_, ?_⟩
    · rw [drawSpokesAux, h1, Option.some_bind, h2]
    · rw [hl2, hl1, List.length_cons]
      ring

/-! ## Claim theorems -/

/-- C1: for every `max_radial_distance = R > 0` and every center,
`recursive_hex_draw` invoked at level 0 emits exactly `6 × R` line segments
into the mesh builder — 6 (one per entry of the side-angle table) at each level
`0 ≤ L < R` — with the recursion stopping when the level reaches `R`. -/
theorem hex_draw_emits_six_per_level (fuel R : Nat) (color : Color) (center : Point)
    (mesh : MeshBuilder) (hR : 0 < R) (hf : R + 1 ≤ fuel) :
    ∃ out, recursive_hex_draw fuel R color center 0 mesh = some out ∧
      out = mesh ++ (List.range R).flatMap (fun L => hexLevelSegments center L) ∧
      (∀ L, (hexLevelSegments center L).length = 6) ∧
      out.length = mesh.length + 6 * R := by
  refine ⟨mesh ++ (List.range R).flatMap (fun L => hexLevelSegments center L), ?_, rfl,
    fun L => hexLevelSegments_length center L, ?_⟩
  · have h := recursive_hex_draw_closed R color center R fuel 0 mesh (by omega) (by omega)
    simpa using h
  · rw [List.length_append]
    have h := range_flatMap_hexLevel_length center R 0
    simpa using h

/-- Witness for C1 at `R = 2`, fuel 3. -/
theorem hex_draw_emits_six_per_level_witness :
    ∃ out, recursive_hex_draw 3 2 WHITE ⟨0, 0⟩ 0 [] = some out ∧
      out = [] ++ (List.range 2).flatMap (fun L => hexLevelSegments ⟨0, 0⟩ L) ∧
      (∀ L, (hexLevelSegments (⟨0, 0⟩ : Point) L).length = 6) ∧
      out.length = List.length ([] : MeshBuilder) + 6 * 2 :=
  hex_draw_emits_six_per_level 3 2 WHITE ⟨0, 0⟩ [] (by decide) (by decide)

/-- C2: invoking `recursive_spoke_draw` once per entry of the 6-entry
vertex-angle table, as the spoke loop of `draw_grid` does, emits exactly
`6 × 3 × (2^R − 1)` line segments in total for `R > 0`: each non-terminal
invocation emits 3 segments and makes 2 recursive calls at `level + 1`. -/
theorem spoke_draw_total_segment_count (fuel R : Nat) (center : Point) (mesh : MeshBuilder)
    (hR : 0 < R) (hf : R + 1 ≤ fuel) :
    ∃ out, drawSpokesAux fuel R center HEX_VERTICES mesh = some out ∧
      out.length = mesh.length + 6 * 3 * (2 ^ R - 1) := by
  obtain ⟨out, h, hl⟩ := drawSpokesAux_count R fuel center hf HEX_VERTICES mesh
  refine ⟨out, h, ?_⟩
  rw [hl]
  have h6 : HEX_VERTICES.length = 6 := by simp [HEX_VERTICES]
  rw [h6]
  ring

/-- Witness for C2 at `R = 2`, fuel 3. -/
theorem spoke_draw_total_segment_count_witness :
    ∃ out, drawSpokesAux 3 2 ⟨0, 0⟩ HEX_VERTICES [] = some out ∧
      out.length = List.length ([] : MeshBuilder) + 6 * 3 * (2 ^ 2 - 1) :=
  spoke_draw_total_segment_count 3 2 ⟨0, 0⟩ [] (by decide) (by decide)

/-- C5: in every non-terminal invocation of `recursive_spoke_draw`, the color
passed to the first recursive call has its green channel decreased by 0.1 and
its red channel increased by 0.1; the color passed to the second recursive call
has the same decreased green but its red channel reassigned from the current
blue channel plus 0.1; the blue and alpha channels are never modified. -/
theorem spoke_child_colors_spec (c : Color) :
    (spokeChildColors c).1 = ⟨c.r + 0.1, c.g - 0.1, c.b, c.a⟩ ∧
    (spokeChildColors c).2 = ⟨c.b + 0.1, c.g - 0.1, c.b, c.a⟩ ∧
    (spokeChildColors c).1.b = c.b ∧ (spokeChildColors c).1.a = c.a ∧
    (spokeChildColors c).2.b = c.b ∧ (spokeChildColors c).2.a = c.a :=
  ⟨rfl, rfl, rfl, rfl, rfl, rfl⟩

/-- C7: the hand-written `PartialEq::eq` for `Direction` never terminates — for
every call-depth bound it produces no result, because the body dispatches back
to the same function with unchanged arguments. -/
theorem direction_eq_diverges : ∀ (fuel : Nat) (a b : Direction),
    direction_eq_fuel fuel a b = none := by
  intro fuel
  induction fuel with
  | zero => intro a b; rfl
  | succ n ih => intro a b; simpa [direction_eq_fuel] using ih a b

/-- C9: `colors::from_element` panics (returns `none` in this embedding) if and
only if its argument is `Element::Unset`; every other variant maps to exactly
its fixed color constant. -/
theorem from_element_total_except_unset :
    (∀ e : Element, from_element e = none ↔ e = Element.Unset) ∧
    from_element Element.Fire = some RED ∧
    from_element Element.Ice = some CYAN ∧
    from_element Element.Wind = some GREEN ∧
    from_element Element.Water = some BLUE ∧
    from_element Element.Electric = some YELLOW ∧
    from_element Element.Earth = some BROWN ∧
    from_element Element.Light = some IVORY ∧
    from_element Element.Dark = some INDIGO := by
  refine ⟨?_, rfl, rfl, rfl, rfl, rfl, rfl, rfl, rfl⟩
  intro e
  cases e <;> simp [from_element]

/-- C10: with `max_radial_distance = 0`, `draw_grid` emits zero line segments
for every center: the hex recursion and all six spoke recursions return
immediately at level 0, leaving the mesh builder unchanged. -/
theorem draw_grid_zero_radius (fuel : Nat) (center : Point) (mesh : MeshBuilder)
    (hf : 1 ≤ fuel) :
    draw_grid fuel 0 center mesh = some mesh := by
  obtain ⟨f, rfl⟩ : ∃ f, fuel = f + 1 := ⟨fuel - 1, by omega⟩
  have hhex : recursive_hex_draw (f + 1) 0 WHITE center 0 mesh = some mesh := by
    simp [recursive_hex_draw]
  have hsp : ∀ (dirs : List (Direction × ℝ)) (m : MeshBuilder),
      drawSpokesAux (f + 1) 0 center dirs m = some m := by
    intro dirs
    induction dirs with
    | nil => intro m; rfl
    | cons p rest ih => intro m; simp [drawSpokesAux, recursive_spoke_draw, ih]
  simp [draw_grid, hhex, hsp]

/-- Witness for C10 at fuel 1. -/
theorem draw_grid_zero_radius_witness :
    draw_grid 1 0 ⟨0, 0⟩ [] = some [] :=
  draw_grid_zero_radius 1 ⟨0, 0⟩ [] (by decide)

lemma recursive_hex_draw_white :
    ∀ (fuel R level : Nat) (color : Color) (center : Point) (mesh out : MeshBuilder),
      recursive_hex_draw fuel R color center level mesh = some out →
      (∀ it ∈ mesh, whiteLine it) → ∀ it ∈ out, whiteLine it := by
  intro fuel
  induction fuel with
  | zero => intro R level color center mesh out h; simp [recursive_hex_draw] at h
  | succ f ih =>
    intro R level color center mesh out h hm
    by_cases hlv : level = R
    · rw [recursive_hex_draw, if_pos hlv] at h
      obtain rfl : mesh = out := by simpa using h
      exact hm
    · rw [recursive_hex_draw, if_neg hlv] at h
      refine ih R (level + 1) color center _ out h ?_
      intro it hit
      rcases List.mem_append.mp hit with hmem | hmem
      · exact hm it hmem
      · simp only [hexLevelSegments, List.mem_map] at hmem
        obtain ⟨p, _, rfl⟩ := hmem
        exact ⟨_, rfl, rfl, rfl⟩

lemma recursive_spoke_draw_white (theta : ℝ) :
    ∀ (fuel R level : Nat) (color : Color) (origin : Point) (mesh out : MeshBuilder),
      recursive_spoke_draw fuel R color origin theta level mesh = some out →
      (∀ it ∈ mesh, whiteLine it) → ∀ it ∈ out, whiteLine it := by
  intro fuel
  induction fuel with
  | zero => intro R level color origin mesh out h; simp [recursive_spoke_draw] at h
  | succ f ih =>
    intro R level color origin mesh out h hm
    by_cases hlv : level = R
    · rw [recursive_spoke_draw, if_pos hlv] at h
      obtain rfl : mesh = out := by simpa using h
      exact hm
    · rw [recursive_spoke_draw, if_neg hlv] at h
      obtain ⟨m2, h1, h2⟩ := Option.bind_eq_some.mp h
      have hm1 : ∀ it ∈ mesh ++ spokeLines origin theta, whiteLine it := by
        intro it hit
        rcases List.mem_append.mp hit with hmem | hmem
        · exact hm it hmem
        · simp only [spokeLines, List.mem_cons, List.not_mem_nil, or_false] at hmem
          rcases hmem with rfl | rfl | rfl
          · exact ⟨_, rfl, rfl, rfl⟩
          · exact ⟨_, rfl, rfl, rfl⟩
          · exact ⟨_, rfl, rfl, rfl⟩
      have hm2 : ∀ it ∈ m2, whiteLine it := ih R (level + 1) _ _ _ m2 h1 hm1
      exact ih R (level + 1) _ _ _ out h2 hm2

lemma drawSpokesAux_white (fuel R : Nat) (center : Point) :
    ∀ (dirs : List (Direction × ℝ)) (mesh out : MeshBuilder),
      drawSpokesAux fuel R center dirs mesh = some out →
      (∀ it ∈ mesh, whiteLine it) → ∀ it ∈ out, whiteLine it := by
  intro dirs
  induction dirs with
  | nil =>
    intro mesh out h hm
    obtain rfl : mesh = out := by simpa [drawSpokesAux] using h
    exact hm
  | cons p rest ih =>
    intro mesh out h hm
    rw [drawSpokesAux] at h
    obtain ⟨m2, h1, h2⟩ := Option.bind_eq_some.mp h
    exact ih m2 out h2 (recursive_spoke_draw_white p.2 fuel R 0 GREEN _ mesh m2 h1 hm)

/-- C4: every line segment emitted by `draw_grid` — the hex-ring segments of
`recursive_hex_draw` and all three segments of every `recursive_spoke_draw`
invocation — has line width 1.0 and color `WHITE`, regardless of the color
argument passed in; in particular the `GREEN` spoke color supplied by
`draw_grid` never appears in the emitted output. -/
theorem draw_grid_all_white_unit_width (fuel R : Nat) (center : Point)
    (mesh out : MeshBuilder) (h : draw_grid fuel R center mesh = some out)
    (hm : ∀ it ∈ mesh, whiteLine it) :
    allWhiteUnitLines out := by
  rw [allWhiteUnitLines]
  rw [draw_grid] at h
  obtain ⟨m1, h1, h2⟩ := Option.bind_eq_some.mp h
  have hw1 : ∀ it ∈ m1, whiteLine it :=
    recursive_hex_draw_white fuel R 0 WHITE center mesh m1 h1 hm
  have hw : ∀ it ∈ out, whiteLine it := drawSpokesAux_white fuel R center HEX_VERTICES m1 out h2 hw1
  intro it hit
  obtain ⟨seg, he, hwid, hcol⟩ := hw it hit
  refine ⟨seg, he, hwid, hcol, ?_⟩
  rw [hcol]
  intro hcontra
  have : (1 : ℚ) = 0 := congrArg Color.r hcontra
  norm_num at this

/-- Witness for C4 at `R = 1`, fuel 2, starting from an empty mesh builder. -/
theorem draw_grid_all_white_unit_width_witness :
    allWhiteUnitLines ((draw_grid 2 1 ⟨0, 0⟩ []).getD []) :=
  draw_grid_all_white_unit_width 2 1 ⟨0, 0⟩ [] ((draw_grid 2 1 ⟨0, 0⟩ []).getD []) rfl
    (by simp)

lemma sqrt_three_bounds :
    (1.732050807565 : ℝ) < Real.sqrt 3 ∧ Real.sqrt 3 < 1.732050807572 := by
  have h0 : Real.sqrt 3 ^ 2 = 3 := Real.sq_sqrt (by norm_num)
  have h1 : (0 : ℝ) ≤ Real.sqrt 3 := Real.sqrt_nonneg 3
  constructor
  · nlinarith [h0, h1]
  · nlinarith [h0, h1]

lemma hex_size_approximates :
    |HEX_SIZE - 2 * GRID_CELL_SIZE * Real.sin (PI / 3)| < 1 / 1000000000 := by
  have hs : Real.sin (PI / 3) = Real.sqrt 3 / 2 := Real.sin_pi_div_three
  obtain ⟨ha, hb⟩ := sqrt_three_bounds
  rw [hs, abs_sub_lt_iff]
  constructor
  · simp only [HEX_SIZE, Y_OFFSET, GRID_CELL_SIZE]
    nlinarith [ha, hb]
  · simp only [HEX_SIZE, Y_OFFSET, GRID_CELL_SIZE]
    nlinarith [ha, hb]

/-- C3: for every level `L < R` and every side angle `theta` of the side table,
the segment emitted by `recursive_hex_draw` is present in the output; its
endpoints sit at angles `theta − 30°` and `theta + 30°` at radius
`GRID_CELL_SIZE` from the per-level translated center (screen-space y
inverted), both endpoints being translated by `L × HEX_SIZE` along direction
`theta` while the recursion keeps the center unchanged; the two endpoints are
symmetric about the ray at angle `theta` from the center (their midpoint lies
on the ray and their difference is perpendicular to it), and `HEX_SIZE` equals
`2 × GRID_CELL_SIZE × sin 60°` to within `10⁻⁹`. -/
theorem hex_side_segment_geometry (center : Point) (L R fuel : Nat) (theta : ℝ)
    (out : MeshBuilder) (hmem : theta ∈ HEX_SIDES.map Prod.snd) (hLR : L < R)
    (hf : R + 1 ≤ fuel)
    (hout : recursive_hex_draw fuel R WHITE center 0 [] = some out) :
    hexSideSegment center L theta ∈ out ∧
    hexSideEndpointA center L theta =
      ⟨(center.x + (L : ℝ) * (HEX_SIZE * Real.cos theta)) +
          GRID_CELL_SIZE * Real.cos (theta - PI / 6),
        (center.y - (L : ℝ) * (HEX_SIZE * Real.sin theta)) -
          GRID_CELL_SIZE * Real.sin (theta - PI / 6)⟩ ∧
    hexSideEndpointB center L theta =
      ⟨(center.x + (L : ℝ) * (HEX_SIZE * Real.cos theta)) +
          GRID_CELL_SIZE * Real.cos (theta + PI / 6),
        (center.y - (L : ℝ) * (HEX_SIZE * Real.sin theta)) -
          GRID_CELL_SIZE * Real.sin (theta + PI / 6)⟩ ∧
    ((hexSideEndpointA center L theta).x -
        (center.x + (L : ℝ) * (HEX_SIZE * Real.cos theta))) ^ 2 +
      ((hexSideEndpointA center L theta).y -
        (center.y - (L : ℝ) * (HEX_SIZE * Real.sin theta))) ^ 2 = GRID_CELL_SIZE ^ 2 ∧
    ((hexSideEndpointB center L theta).x -
        (center.x + (L : ℝ) * (HEX_SIZE * Real.cos theta))) ^ 2 +
      ((hexSideEndpointB center L theta).y -
        (center.y - (L : ℝ) * (HEX_SIZE * Real.sin theta))) ^ 2 = GRID_CELL_SIZE ^ 2 ∧
    ((hexSideEndpointA center L theta).x - (hexSideEndpointB center L theta).x) *
        Real.cos theta -
      ((hexSideEndpointA center L theta).y - (hexSideEndpointB center L theta).y) *
        Real.sin theta = 0 ∧
    (∃ d : ℝ,
      ((hexSideEndpointA center L theta).x + (hexSideEndpointB center L theta).x) / 2 =
        center.x + d * Real.cos theta ∧
      ((hexSideEndpointA center L theta).y + (hexSideEndpointB center L theta).y) / 2 =
        center.y - d * Real.sin theta) ∧
    |HEX_SIZE - 2 * GRID_CELL_SIZE * Real.sin (PI / 3)| < 1 / 1000000000 := by
  refine ⟨?_, ?_, ?_, ?_, ?_, ?_, ?_, hex_size_approximates⟩
  · have hcl := recursive_hex_draw_closed R WHITE center R fuel 0 [] (by omega) (by omega)
    rw [hcl] at hout
    obtain rfl : ([] : MeshBuilder) ++
        (List.range R).flatMap (fun k => hexLevelSegments center (0 + k)) = out := by
      simpa using hout
    simp only [List.nil_append]
    refine List.mem_flatMap.mpr ⟨L, List.mem_range.mpr hLR, ?_⟩
    simp only [Nat.zero_add, hexLevelSegments]
    obtain ⟨p, hp, hpt⟩ := List.mem_map.mp hmem
    exact List.mem_map.mpr ⟨p, hp, by rw [hpt]⟩
  · ext <;> simp only [hexSideEndpointA] <;> ring
  · ext <;> simp only [hexSideEndpointB] <;> ring
  · simp only [hexSideEndpointA]
    linear_combination GRID_CELL_SIZE ^ 2 * Real.sin_sq_add_cos_sq (theta - PI / 6)
  · simp only [hexSideEndpointB]
    linear_combination GRID_CELL_SIZE ^ 2 * Real.sin_sq_add_cos_sq (theta + PI / 6)
  · simp only [hexSideEndpointA, hexSideEndpointB]
    rw [Real.cos_sub, Real.cos_add, Real.sin_sub, Real.sin_add]
    ring
  · refine ⟨(L : ℝ) * HEX_SIZE + GRID_CELL_SIZE * Real.cos (PI / 6), ?_, ?_⟩
    · simp only [hexSideEndpointA, hexSideEndpointB]
      rw [Real.cos_sub, Real.cos_add]
      ring
    · simp only [hexSideEndpointA, hexSideEndpointB]
      rw [Real.sin_sub, Real.sin_add]
      ring

/-- Witness for C3 at `theta = PI/2` (the NORTH side), `L = 0`, `R = 1`. -/
theorem hex_side_segment_geometry_witness :
    hexSideSegment ⟨0, 0⟩ 0 (PI / 2) ∈ (recursive_hex_draw 2 1 WHITE ⟨0, 0⟩ 0 []).getD [] ∧
    hexSideEndpointA ⟨0, 0⟩ 0 (PI / 2) =
      ⟨((0 : ℝ) + (0 : Nat) * (HEX_SIZE * Real.cos (PI / 2))) +
          GRID_CELL_SIZE * Real.cos (PI / 2 - PI / 6),
        ((0 : ℝ) - (0 : Nat) * (HEX_SIZE * Real.sin (PI / 2))) -
          GRID_CELL_SIZE * Real.sin (PI / 2 - PI / 6)⟩ ∧
    hexSideEndpointB ⟨0, 0⟩ 0 (PI / 2) =
      ⟨((0 : ℝ) + (0 : Nat) * (HEX_SIZE * Real.cos (PI / 2))) +
          GRID_CELL_SIZE * Real.cos (PI / 2 + PI / 6),
        ((0 : ℝ) - (0 : Nat) * (HEX_SIZE * Real.sin (PI / 2))) -
          GRID_CELL_SIZE * Real.sin (PI / 2 + PI / 6)⟩ ∧
    ((hexSideEndpointA ⟨0, 0⟩ 0 (PI / 2)).x -
        ((0 : ℝ) + (0 : Nat) * (HEX_SIZE * Real.cos (PI / 2)))) ^ 2 +
      ((hexSideEndpointA ⟨0, 0⟩ 0 (PI / 2)).y -
        ((0 : ℝ) - (0 : Nat) * (HEX_SIZE * Real.sin (PI / 2)))) ^ 2 = GRID_CELL_SIZE ^ 2 ∧
    ((hexSideEndpointB ⟨0, 0⟩ 0 (PI / 2)).x -
        ((0 : ℝ) + (0 : Nat) * (HEX_SIZE * Real.cos (PI / 2)))) ^ 2 +
      ((hexSideEndpointB ⟨0, 0⟩ 0 (PI / 2)).y -
        ((0 : ℝ) - (0 : Nat) * (HEX_SIZE * Real.sin (PI / 2)))) ^ 2 = GRID_CELL_SIZE ^ 2 ∧
    ((hexSideEndpointA ⟨0, 0⟩ 0 (PI / 2)).x - (hexSideEndpointB ⟨0, 0⟩ 0 (PI / 2)).x) *
        Real.cos (PI / 2) -
      ((hexSideEndpointA ⟨0, 0⟩ 0 (PI / 2)).y - (hexSideEndpointB ⟨0, 0⟩ 0 (PI / 2)).y) *
        Real.sin (PI / 2) = 0 ∧
    (∃ d : ℝ,
      ((hexSideEndpointA ⟨0, 0⟩ 0 (PI / 2)).x + (hexSideEndpointB ⟨0, 0⟩ 0 (PI / 2)).x) / 2 =
        (0 : ℝ) + d * Real.cos (PI / 2) ∧
      ((hexSideEndpointA ⟨0, 0⟩ 0 (PI / 2)).y + (hexSideEndpointB ⟨0, 0⟩ 0 (PI / 2)).y) / 2 =
        (0 : ℝ) - d * Real.sin (PI / 2)) ∧
    |HEX_SIZE - 2 * GRID_CELL_SIZE * Real.sin (PI / 3)| < 1 / 1000000000 :=
  hex_side_segment_geometry ⟨0, 0⟩ 0 1 2 (PI / 2)
    ((recursive_hex_draw 2 1 WHITE ⟨0, 0⟩ 0 []).getD [])
    (by simp [HEX_SIDES]) (by decide) (by decide) rfl

lemma countPoly_snoc_poly (mesh : MeshBuilder) (vs : List Point) (f b : Color) :
    countPoly (mesh ++ [MeshItem.poly vs f b]) = countPoly mesh + 1 := by
  simp [countPoly, List.countP_append, MeshItem.isPolyItem]

lemma countLine_snoc_poly (mesh : MeshBuilder) (vs : List Point) (f b : Color) :
    countLine (mesh ++ [MeshItem.poly vs f b]) = countLine mesh := by
  simp [countLine, List.countP_append, MeshItem.isLineItem]

lemma countPoly_snoc_line (mesh : MeshBuilder) (seg : Segment) :
    countPoly (mesh ++ [MeshItem.line seg]) = countPoly mesh := by
  simp [countPoly, List.countP_append, MeshItem.isPolyItem]

lemma countLine_snoc_line (mesh : MeshBuilder) (seg : Segment) :
    countLine (mesh ++ [MeshItem.line seg]) = countLine mesh + 1 := by
  simp [countLine, List.countP_append, MeshItem.isLineItem]

lemma obstacleLoop_spec (elem : Element) (elemColor : Color) (wc : Point)
    (he : from_element elem = some elemColor) :
    ∀ (coords : List HexCoord) (prev : Option HexCoord) (mesh : MeshBuilder),
      chainAdjB prev coords = true →
      ∃ out, obstacleLoop elem wc coords prev mesh = some out ∧
        countPoly out = countPoly mesh + coords.length ∧
        countLine out = countLine mesh + (coords.length - prevFirst prev) ∧
        ∀ it ∈ out, it ∈ mesh ∨ obstacleItem elemColor it := by
  intro coords
  induction coords with
  | nil =>
    intro prev mesh hadj
    refine ⟨mesh, rfl, by simp, ?_, fun it h => Or.inl h⟩
    cases prev <;> simp [prevFirst]
  | cons c rest ih =>
    intro prev mesh hadj
    cases prev with
    | none =>
      have hadj' : chainAdjB (some c) rest = true := hadj
      obtain ⟨out, hloop, hp, hl, hitems⟩ := ih (some c)
        (HexGridCell.add_to_mesh ⟨hexCoordScreenCenter wc c, GRID_CELL_SIZE⟩ elemColor DARKGREY mesh)
        hadj'
      refine ⟨out, ?_, ?_, ?_, ?_⟩
      · simp only [obstacleLoop, he]
        exact hloop
      · rw [hp, HexGridCell.add_to_mesh, countPoly_snoc_poly, List.length_cons]
        omega
      · rw [hl, HexGridCell.add_to_mesh, countLine_snoc_poly, List.length_cons]
        simp only [prevFirst]
        omega
      · intro it hit
        rcases hitems it hit with hmem | hP
        · rw [HexGridCell.add_to_mesh] at hmem
          rcases List.mem_append.mp hmem with hmem2 | hmem2
          · exact Or.inl hmem2
          · simp only [List.mem_cons, List.not_mem_nil, or_false] at hmem2
            exact Or.inr (Or.inl ⟨_, hmem2⟩)
        · exact Or.inr hP
    | some p =>
      have hadj2 : (sideFromDelta (p.sub c)).isSome = true ∧ chainAdjB (some c) rest = true :=
        Bool.and_eq_true_iff.mp hadj
      obtain ⟨dir, hdir⟩ := Option.isSome_iff_exists.mp hadj2.1
      obtain ⟨out, hloop, hp, hl, hitems⟩ := ih (some c) _ hadj2.2
      refine ⟨out, ?_, ?_, ?_, ?_⟩
      · simp only [obstacleLoop, he, hdir]
        exact hloop
      · rw [hp, HexGridCell.add_to_mesh, countPoly_snoc_line, countPoly_snoc_poly,
          List.length_cons]
        omega
      · rw [hl, HexGridCell.add_to_mesh, countLine_snoc_line, countLine_snoc_poly,
          List.length_cons]
        simp only [prevFirst]
        omega
      · intro it hit
        rcases hitems it hit with hmem | hP
        · rcases List.mem_append.mp hmem with hmem2 | hmem2
          · rw [HexGridCell.add_to_mesh] at hmem2
            rcases List.mem_append.mp hmem2 with hmem3 | hmem3
            · exact Or.inl hmem3
            · simp only [List.mem_cons, List.not_mem_nil, or_false] at hmem3
              exact Or.inr (Or.inl ⟨_, hmem3⟩)
          · simp only [List.mem_cons, List.not_mem_nil, or_false] at hmem2
            exact Or.inr (Or.inr ⟨_, hmem2, rfl, rfl⟩)
        · exact Or.inr hP

/-- C6: for every obstacle whose coordinate path has `N ≥ 1` coordinates (with
consecutive coordinates adjacent and a set element),
`ObstacleManager::add_instance_to_mesh_builder` adds exactly `N` hex cells to
the mesh builder (each filled with the element's color and bordered with the
fixed dark `DARKGREY`) and exactly `N − 1` override line segments, one per
coordinate after the first, drawn over the side shared with the previous
coordinate in the element's color. -/
theorem obstacle_mesh_cell_and_line_count (window_x window_y : ℝ) (inst : Obstacle)
    (mesh : MeshBuilder) (elemColor : Color)
    (he : from_element inst.element = some elemColor)
    (hadj : chainAdjB none inst.all_coords = true)
    (hN : 1 ≤ inst.all_coords.length) :
    ∃ out, obstacle_add_instance_to_mesh_builder window_x window_y inst mesh =
        some (Except.ok out) ∧
      countPoly out = countPoly mesh + inst.all_coords.length ∧
      countLine out = countLine mesh + (inst.all_coords.length - 1) ∧
      ∀ it ∈ out, it ∈ mesh ∨ obstacleItem elemColor it := by
  obtain ⟨out, hloop, hp, hl, hi⟩ := obstacleLoop_spec inst.element elemColor
    ⟨window_x / 2, window_y / 2⟩ he inst.all_coords none mesh hadj
  refine ⟨out, ?_, hp, by simpa [prevFirst] using hl, hi⟩
  rw [obstacle_add_instance_to_mesh_builder]
  rw [hloop]

/-- Witness for C6: a two-cell Fire obstacle with adjacent coordinates. -/
theorem obstacle_mesh_cell_and_line_count_witness :
    ∃ out, obstacle_add_instance_to_mesh_builder 800 600
        ⟨Element.Fire, [⟨0, 0, 0⟩, ⟨1, 0, -1⟩]⟩ [] = some (Except.ok out) ∧
      countPoly out = countPoly [] +
        (⟨Element.Fire, [⟨0, 0, 0⟩, ⟨1, 0, -1⟩]⟩ : Obstacle).all_coords.length ∧
      countLine out = countLine [] +
        ((⟨Element.Fire, [⟨0, 0, 0⟩, ⟨1, 0, -1⟩]⟩ : Obstacle).all_coords.length - 1) ∧
      ∀ it ∈ out, it ∈ ([] : MeshBuilder) ∨ obstacleItem RED it :=
  obstacle_mesh_cell_and_line_count 800 600 ⟨Element.Fire, [⟨0, 0, 0⟩, ⟨1, 0, -1⟩]⟩ [] RED
    rfl (by decide) (by decide)

/-- C8: for every instance, mesh builder and window, both
`add_instance_to_mesh_builder` implementations return `Ok(())` whenever they
return at all: the declared error types `ObstacleError` and `ResourceError`
are never constructed, so the `Result` is never `Err`. -/
theorem add_instance_always_ok :
    (∀ (wx wy : ℝ) (inst : Obstacle) (mesh : MeshBuilder)
        (res : Except ObstacleError MeshBuilder),
      obstacle_add_instance_to_mesh_builder wx wy inst mesh = some res →
        ∃ out, res = Except.ok out) ∧
    (∀ (wx wy : ℝ) (inst : Resource) (mesh : MeshBuilder)
        (res : Except ResourceError MeshBuilder),
      resource_add_instance_to_mesh_builder wx wy inst mesh = some res →
        ∃ out, res = Except.ok out) := by
  constructor
  · intro wx wy inst mesh res h
    rw [obstacle_add_instance_to_mesh_builder] at h
    rcases hl : obstacleLoop inst.element ⟨wx / 2, wy / 2⟩ inst.all_coords none mesh with _ | out
    · rw [hl] at h
      simp at h
    · rw [hl] at h
      refine ⟨out, ?_⟩
      simpa using h.symm
  · intro wx wy inst mesh res h
    rw [resource_add_instance_to_mesh_builder] at h
    rcases hl : from_resource inst with _ | col
    · rw [hl] at h
      simp at h
    · rw [hl] at h
      exact ⟨_, (by simpa using h.symm)⟩

/-- Witness for C8: a concrete obstacle and a concrete resource, both of which
evaluate to `Ok`. -/
theorem add_instance_always_ok_witness :
    (∃ out, (obstacle_add_instance_to_mesh_builder 800 600
        ⟨Element.Fire, [⟨0, 0, 0⟩, ⟨1, 0, -1⟩]⟩ []).getD (Except.error ⟨⟩) =
      Except.ok out) ∧
    (∃ out, (resource_add_instance_to_mesh_builder 800 600
        ⟨Element.Water, ⟨0, 0, 0⟩, 1⟩ []).getD (Except.error ⟨⟩) =
      Except.ok out) :=
  ⟨add_instance_always_ok.1 800 600 ⟨Element.Fire, [⟨0, 0, 0⟩, ⟨1, 0, -1⟩]⟩ [] _ (by rfl),
   add_instance_always_ok.2 800 600 ⟨Element.Water, ⟨0, 0, 0⟩, 1⟩ [] _ (by rfl)⟩

end IronSandboxide
